import Mathlib

/-!
Shallow embedding of `review_pr.py`, an AI pull-request reviewer pipeline:
fetch a PR's diff and changed files over HTTP, fetch title/body via the
GitHub client, build a review prompt, send it to a chat-completion API,
and post the result back as a PR comment.

Network interactions are modelled by passing the outcome of each external
call (a response, or the description `str(e)` of a raised exception) as an
explicit input; `Except String` plays the role of Python exceptions.
-/

namespace ReviewPr

/-- One element of the JSON list returned by the GitHub pull-request
"files" endpoint, as consumed by `create_review_prompt`
(fields `filename`, `status`, `additions`, `deletions`). -/
structure ChangedFile where
  filename : String
  status : String
  additions : Nat
  deletions : Nat
  deriving DecidableEq, Repr

/-- Model of a `requests` HTTP response: its status code and its body
(`response.text` for the diff call, the parsed `response.json()` for the
files call; the body type is a parameter). -/
structure HttpResponse (β : Type) where
  status_code : Nat
  body : β
  deriving DecidableEq, Repr

/-- Model of `requests.Response.raise_for_status`: per the requests
library it raises `HTTPError` exactly for status codes 400-499
("Client Error") and 500-599 ("Server Error"), and returns `None`
(here: the response unchanged) for every other status code. -/
def raise_for_status {β : Type} (r : HttpResponse β) :
    Except String (HttpResponse β) :=
  if 400 ≤ r.status_code ∧ r.status_code < 500 then
    .error (toString r.status_code ++ " Client Error")
  else if 500 ≤ r.status_code ∧ r.status_code < 600 then
    .error (toString r.status_code ++ " Server Error")
  else
    .ok r

/-- `get_pr_diff`: performs `requests.get` on the pull-request resource
with the diff media type, calls `raise_for_status`, and returns
`response.text`. The argument is the outcome of `requests.get` itself
(which may raise, e.g. a connection error, before any status exists). -/
def get_pr_diff (get_outcome : Except String (HttpResponse String)) :
    Except String String :=
  match get_outcome with
  | .error e => .error e
  | .ok response => (raise_for_status response).map (fun r => r.body)

/-- `get_changed_files`: performs `requests.get` on the pull-request
"files" sub-resource, calls `raise_for_status`, and returns
`response.json()`, the parsed list of changed files. -/
def get_changed_files
    (get_outcome : Except String (HttpResponse (List ChangedFile))) :
    Except String (List ChangedFile) :=
  match get_outcome with
  | .error e => .error e
  | .ok response => (raise_for_status response).map (fun r => r.body)

/-- Python `x or d` for an optional string `x`: yields `d` when `x` is
`None` or the empty string (both falsy), else `x` itself. -/
def py_or (x : Option String) (d : String) : String :=
  match x with
  | none => d
  | some s => if s = "" then d else s

/-- Python `s.startswith(p)`: `p` is a prefix of `s`, on code points. -/
def py_startswith (s p : String) : Bool :=
  List.isPrefixOf p.data s.data

/-- Python `sep.join(xs)`: the elements of `xs` concatenated with `sep`
between consecutive elements. -/
def py_join (sep : String) : List String → String
  | [] => ""
  | [x] => x
  | x :: y :: xs => x ++ sep ++ py_join sep (y :: xs)

/-- One line of the file summary: a dash, the filename, then in
parentheses the status, `+` additions, a slash, `-` deletions. -/
def file_line (f : ChangedFile) : String :=
  "- " ++ f.filename ++ " (" ++ f.status ++ ", +" ++ toString f.additions
    ++ "/-" ++ toString f.deletions ++ ")"

/-- The `file_summary` local of `create_review_prompt`: one line per file
for the first 20 changed files (`changed_files[:20]`), joined with
newlines; if more than 20 files changed, a final
`... and {n - 20} more files` line is appended. -/
def file_summary (changed_files : List ChangedFile) : String :=
  let base := py_join "\n" ((changed_files.take 20).map file_line)
  if 20 < changed_files.length then
    base ++ ("\n... and " ++ toString (changed_files.length - 20)
      ++ " more files")
  else
    base

/-- Fixed text of the prompt f-string before the title interpolation. -/
def prompt_head : String :=
  "You are an expert code reviewer. Review the following pull request changes and provide constructive feedback.\n\nPull Request Title: "

/-- Fixed text of the prompt f-string between title and description. -/
def prompt_seg_desc : String :=
  "\nPull Request Description: "

/-- Fixed text of the prompt f-string between description and the file
summary. -/
def prompt_seg_files : String :=
  "\n\nChanged Files:\n"

/-- Fixed text of the prompt f-string between the file summary and the
embedded diff (opens the code fence). -/
def prompt_seg_diff : String :=
  "\n\nDiff:\n```\n"

/-- The Python source comment `# Limit diff size to avoid token limits`
sits on the interpolation line INSIDE the triple-quoted f-string, so it is
literal prompt text that immediately follows the embedded diff. -/
def diff_comment : String :=
  "  # Limit diff size to avoid token limits"

/-- Fixed text of the prompt f-string after the diff comment: the closing
code fence and the instruction block. -/
def prompt_tail : String :=
  "\n```\n\nPlease provide a comprehensive code review focusing on:\n1. Code quality and best practices\n2. Potential bugs or security issues\n3. Performance considerations\n4. Code style and consistency\n5. Documentation and comments\n6. Test coverage (if applicable)\n\nFormat your review as:\n- **Summary**: Brief overview\n- **Issues Found**: List of issues with severity (Critical/High/Medium/Low)\n- **Suggestions**: Actionable improvement suggestions\n- **Positive Feedback**: What was done well\n\nBe constructive, specific, and provide code examples when helpful."

/-- `create_review_prompt(diff, changed_files, pr_title="", pr_body="")`:
the review prompt f-string. `{pr_title or 'N/A'}` and
`{pr_body or 'N/A'}` render `N/A` for falsy values; `{diff[:50000]}`
embeds the first 50000 characters of the diff. Python's default arguments
(empty strings) are modelled by `some ""`. -/
def create_review_prompt (diff : String) (changed_files : List ChangedFile)
    (pr_title : Option String := some "") (pr_body : Option String := some "") :
    String :=
  prompt_head ++ py_or pr_title "N/A"
    ++ prompt_seg_desc ++ py_or pr_body "N/A"
    ++ prompt_seg_files ++ file_summary changed_files
    ++ prompt_seg_diff ++ diff.take 50000
    ++ diff_comment ++ prompt_tail

/-- The `message` of one chat-completion choice. -/
structure ChatMessage where
  content : String
  deriving DecidableEq, Repr

/-- One element of `response.choices`. -/
structure ChatChoice where
  message : ChatMessage
  deriving DecidableEq, Repr

/-- The chat-completion response object: its `choices` list. -/
structure ChatCompletion where
  choices : List ChatChoice
  deriving DecidableEq, Repr

/-- The fixed system message sent by `review_with_ai`. -/
def system_message : String :=
  "You are an expert software engineer and code reviewer with deep knowledge of best practices, security, performance, and code quality."

/-- The request `review_with_ai` passes to
`openai_client.chat.completions.create`: the model name, the two
role-tagged messages, temperature 0.3 and max_tokens 2000. -/
structure ChatRequest where
  model : String
  messages : List (String × String)
  temperature : Rat
  max_tokens : Nat
  deriving DecidableEq, Repr

/-- The concrete request built by `review_with_ai` for a model and
prompt. -/
def chat_request (model prompt : String) : ChatRequest :=
  { model := model
    messages := [("system", system_message), ("user", prompt)]
    temperature := 3 / 10
    max_tokens := 2000 }

/-- `review_with_ai(openai_client, model, prompt)`: calls the
chat-completion endpoint and returns `response.choices[0].message.content`;
any exception raised inside the `try` (including the `IndexError` from
`choices[0]` on an empty list) is caught and turned into the string
`"Error during AI review: " + str(e)`. The external call is modelled by
the function `chat` from requests to outcomes. -/
def review_with_ai (chat : ChatRequest → Except String ChatCompletion)
    (model prompt : String) : String :=
  match chat (chat_request model prompt) with
  | .error e => "Error during AI review: " ++ e
  | .ok response =>
    match response.choices with
    | [] => "Error during AI review: list index out of range"
    | choice :: _ => choice.message.content

/-- An observable GitHub mutation: one
`pr.create_issue_comment(comment_body)` call, recorded with the
repository, pull-request number, and comment body. -/
inductive ApiCall where
  | createIssueComment (repo_full_name : String) (pr_number : String)
      (comment_body : String)
  deriving DecidableEq, Repr

/-- The `comment_body` f-string of `post_pr_comment`: the review wrapped
in the fixed Markdown template (heading above, separator and disclaimer
footer below). -/
def comment_template (review_body : String) : String :=
  "## 🤖 AI Code Review\n\n" ++ review_body
    ++ "\n\n---\n*This review was generated automatically by AI PR Reviewer*"

/-- `post_pr_comment(github_token, repo_full_name, pr_number, review_body)`:
issues exactly one create-issue-comment call against the pull request,
with the templated body. The returned list is the sequence of GitHub
mutations the function performs. -/
def post_pr_comment (repo_full_name pr_number review_body : String) :
    List ApiCall :=
  [ApiCall.createIssueComment repo_full_name pr_number
    (comment_template review_body)]

/-- The parsed command-line arguments of `main`. `--pr-sha` is declared
without `required=True` and is never read. -/
structure Args where
  openai_api_key : String
  github_token : String
  openai_model : String
  pr_number : String
  repo : String
  pr_sha : Option String

/-- The default value of `--openai-model`. -/
def default_openai_model : String := "gpt-4-turbo-preview"

/-- The external world's behaviour during one run: the outcome of each
outbound call `main` makes, in order. An `.error e` is a raised exception
with description `str(e)`; `pr_metadata` carries `pr.title` and `pr.body`
(the body may be `None`). -/
structure Env where
  diff_response : Except String (HttpResponse String)
  files_response : Except String (HttpResponse (List ChangedFile))
  pr_metadata : Except String (String × Option String)
  chat : ChatRequest → Except String ChatCompletion
  post_outcome : Except String Unit

/-- The observable outcome of one run of `main`: the process exit code
(0 on success, 1 via `sys.exit(1)` or the top-level handler), the
create-issue-comment calls issued, and the comments actually created on
the pull request (none when the posting call raised). -/
structure RunResult where
  exit_code : Nat
  publisher_calls : List ApiCall
  comments_posted : List ApiCall
  deriving DecidableEq, Repr

/-- `main`: fetch diff, fetch changed files, fetch title/body, build the
prompt, request the review; if the review string starts with `"Error"`,
exit 1 without posting; otherwise post the comment and exit 0. Any
exception raised along the way is caught by the top-level handler and
turns into exit code 1. -/
def run_main (args : Args) (env : Env) : RunResult :=
  match get_pr_diff env.diff_response with
  | .error _ => { exit_code := 1, publisher_calls := [], comments_posted := [] }
  | .ok diff =>
    match get_changed_files env.files_response with
    | .error _ => { exit_code := 1, publisher_calls := [], comments_posted := [] }
    | .ok changed_files =>
      match env.pr_metadata with
      | .error _ => { exit_code := 1, publisher_calls := [], comments_posted := [] }
      | .ok (pr_title, pr_body_raw) =>
        let pr_body := py_or pr_body_raw ""
        let prompt := create_review_prompt diff changed_files
          (some pr_title) (some pr_body)
        let review := review_with_ai env.chat args.openai_model prompt
        if py_startswith review "Error" then
          { exit_code := 1, publisher_calls := [], comments_posted := [] }
        else
          let calls := post_pr_comment args.repo args.pr_number review
          match env.post_outcome with
          | .error _ =>
            { exit_code := 1, publisher_calls := calls, comments_posted := [] }
          | .ok _ =>
            { exit_code := 0, publisher_calls := calls, comments_posted := calls }

/-! ### Concrete fixtures used by the witness theorems -/

/-- Example parsed arguments. -/
def args_ex : Args :=
  { openai_api_key := "k", github_token := "g", openai_model := "m",
    pr_number := "7", repo := "acme/widgets", pr_sha := none }

/-- A chat endpoint that answers every request with one completion. -/
def chat_ok : ChatRequest → Except String ChatCompletion :=
  fun _ => .ok ⟨[⟨⟨"Looks good"⟩⟩]⟩

/-- A chat endpoint whose underlying call always raises. -/
def chat_err : ChatRequest → Except String ChatCompletion :=
  fun _ => .error "connection reset"

/-- An environment in which every external call succeeds. -/
def env_ex : Env :=
  { diff_response := .ok ⟨200, "DIFF"⟩
    files_response := .ok ⟨200, []⟩
    pr_metadata := .ok ("t", some "b")
    chat := chat_ok
    post_outcome := .ok () }

/-- Two example changed files. -/
def files_ex : List ChangedFile :=
  [⟨"a.py", "modified", 1, 2⟩, ⟨"b.py", "added", 3, 0⟩]

/-- A diff one character over the 50000-character truncation limit. -/
def long_diff : String := ⟨List.replicate 50001 'x'⟩

/-! ### Helper lemmas -/

theorem isPrefixOf_append_self (p t : List Char) :
    List.isPrefixOf p (p ++ t) = true := by
  induction p with
  | nil => simp
  | cons a as ih => simp [List.isPrefixOf_cons₂, ih]

theorem py_startswith_append_self (p t : String) :
    py_startswith (p ++ t) p = true := by
  simp [py_startswith, isPrefixOf_append_self]

theorem py_join_snoc (sep y : String) (xs : List String) (h : xs ≠ []) :
    py_join sep (xs ++ [y]) = py_join sep xs ++ sep ++ y := by
  induction xs with
  | nil => exact absurd rfl h
  | cons x xs ih =>
    cases xs with
    | nil => simp [py_join]
    | cons z zs =>
      simp only [List.cons_append, py_join, String.append_assoc, List.append_eq] at ih ⊢
      rw [ih (by simp)]

theorem raise_for_status_of_ok {β : Type} (r : HttpResponse β)
    (h : ¬(400 ≤ r.status_code ∧ r.status_code < 600)) :
    raise_for_status r = .ok r := by
  unfold raise_for_status
  rw [if_neg (by omega), if_neg (by omega)]

theorem raise_for_status_of_error {β : Type} (r : HttpResponse β)
    (h : 400 ≤ r.status_code ∧ r.status_code < 600) :
    ∃ msg, raise_for_status r = .error msg := by
  unfold raise_for_status
  by_cases h1 : 400 ≤ r.status_code ∧ r.status_code < 500
  · exact ⟨_, by rw [if_pos h1]⟩
  · exact ⟨_, by rw [if_neg h1, if_pos (by omega)]⟩

/-! ### Claim theorems -/

/-- C1: when the diff fetch, file fetch and metadata fetch all succeed, the
pipeline exits non-zero without calling the Comment Publisher exactly when
the Review Requester's result string starts with "Error"; when the prefix
is absent the publisher is called once with that review, so exactly one
comment is posted on success (exit code 0) and zero on failure (non-zero
exit). -/
theorem main_abort_iff_error_review (args : Args) (env : Env)
    (diff : String) (files : List ChangedFile) (title : String)
    (body : Option String) (review : String)
    (hd : get_pr_diff env.diff_response = .ok diff)
    (hf : get_changed_files env.files_response = .ok files)
    (hm : env.pr_metadata = .ok (title, body))
    (hR : review = review_with_ai env.chat args.openai_model
      (create_review_prompt diff files (some title) (some (py_or body "")))) :
    (py_startswith review "Error" = true ↔
      ((run_main args env).exit_code ≠ 0 ∧
        (run_main args env).publisher_calls = [])) ∧
    (py_startswith review "Error" = false →
      (run_main args env).publisher_calls =
        post_pr_comment args.repo args.pr_number review) ∧
    ((run_main args env).exit_code = 0 →
      (run_main args env).comments_posted.length = 1) ∧
    ((run_main args env).exit_code ≠ 0 →
      (run_main args env).comments_posted = []) := by
  subst hR
  simp only [run_main, hd, hf, hm]
  cases hsw : py_startswith (review_with_ai env.chat args.openai_model
      (create_review_prompt diff files (some title) (some (py_or body "")))) "Error"
  · cases hpost : env.post_outcome <;> simp [post_pr_comment]
  · simp

/-- C1 witness: in an all-successful environment the run exits 0 and posts
exactly one comment. -/
theorem main_abort_iff_error_review_witness :
    (run_main args_ex env_ex).comments_posted.length = 1 ∧
    (run_main args_ex env_ex).exit_code = 0 :=
  ⟨(main_abort_iff_error_review args_ex env_ex "DIFF" [] "t" (some "b")
      (review_with_ai env_ex.chat args_ex.openai_model
        (create_review_prompt "DIFF" [] (some "t") (some (py_or (some "b") ""))))
      rfl rfl rfl rfl).2.2.1 rfl, rfl⟩

/-- C2: the prompt embeds exactly the first 50000 characters of the diff,
followed immediately by fixed, diff-independent text (no ellipsis or
truncation marker): a diff of at most 50000 characters is embedded in
full, and a longer diff is cut to exactly 50000 characters. -/
theorem create_review_prompt_truncates_diff (diff : String)
    (files : List ChangedFile) (t b : Option String) :
    (∃ pre : String,
      (∀ d : String, create_review_prompt d files t b =
        pre ++ d.take 50000 ++ (diff_comment ++ prompt_tail)) ∧
      create_review_prompt diff files t b =
        pre ++ diff.take 50000 ++ (diff_comment ++ prompt_tail)) ∧
    (diff.length ≤ 50000 → diff.take 50000 = diff) ∧
    (50000 < diff.length →
      (diff.take 50000).length = 50000 ∧
      (diff.take 50000).data = diff.data.take 50000) := by
  refine ⟨⟨prompt_head ++ py_or t "N/A" ++ prompt_seg_desc ++ py_or b "N/A"
      ++ prompt_seg_files ++ file_summary files ++ prompt_seg_diff,
      fun d => ?_, ?_⟩, ?_, ?_⟩
  · simp only [create_review_prompt, String.append_assoc]
  · simp only [create_review_prompt, String.append_assoc]
  · intro h
    apply String.ext
    simp only [String.data_take]
    exact List.take_of_length_le (by rw [String.length_data]; omega)
  · intro h
    constructor
    · rw [← String.length_data]
      simp only [String.data_take, List.length_take]
      rw [String.length_data]
      omega
    · simp [String.data_take]

/-- C2 witness: a 50001-character diff is cut to exactly 50000 characters,
and a 2-character diff is embedded in full. -/
theorem create_review_prompt_truncates_diff_witness :
    (long_diff.take 50000).length = 50000 ∧ ("ab" : String).take 50000 = "ab" :=
  ⟨((create_review_prompt_truncates_diff long_diff [] none none).2.2 (by
      rw [← String.length_data]
      simp only [long_diff, List.length_replicate]
      omega)).1,
   (create_review_prompt_truncates_diff "ab" [] none none).2.1 (by decide)⟩

/-- C3: the prompt contains the file summary, which joins one line per
file for exactly the first min(n, 20) changed files in input order, and
appends exactly one "... and {n-20} more files" line when n > 20 and none
otherwise. -/
theorem create_review_prompt_files (diff : String) (files : List ChangedFile)
    (t b : Option String) :
    (∃ pre post : String,
      create_review_prompt diff files t b = pre ++ file_summary files ++ post) ∧
    file_summary files =
      py_join "\n" ((files.take 20).map file_line ++
        (if 20 < files.length
          then ["... and " ++ toString (files.length - 20) ++ " more files"]
          else [])) ∧
    ((files.take 20).map file_line).length = min files.length 20 ∧
    (∀ i : Nat, i < 20 →
      ((files.take 20).map file_line)[i]? = (files[i]?).map file_line) := by
  refine ⟨⟨prompt_head ++ py_or t "N/A" ++ prompt_seg_desc ++ py_or b "N/A"
      ++ prompt_seg_files,
      prompt_seg_diff ++ diff.take 50000 ++ diff_comment ++ prompt_tail, ?_⟩,
    ?_, ?_, ?_⟩
  · simp only [create_review_prompt, String.append_assoc]
  · by_cases h : 20 < files.length
    · have hne : (files.take 20).map file_line ≠ [] := by
        apply List.ne_nil_of_length_pos
        rw [List.length_map, List.length_take]
        omega
      rw [if_pos h, py_join_snoc _ _ _ hne]
      simp only [file_summary, if_pos h]
      rw [show ("\n... and " : String) = "\n" ++ "... and " from rfl]
      simp only [String.append_assoc]
    · rw [if_neg h, List.append_nil]
      simp only [file_summary, if_neg h]
  · simp [List.length_take, Nat.min_comm]
  · intro i hi
    rw [List.getElem?_map, List.getElem?_take_of_lt hi]

/-- C3 witness: on a concrete two-file list, summary lines are the
per-file lines in input order and the summary has no "more files" line. -/
theorem create_review_prompt_files_witness :
    ((files_ex.take 20).map file_line)[0]? = (files_ex[0]?).map file_line ∧
    file_summary files_ex = "- a.py (modified, +1/-2)\n- b.py (added, +3/-0)" :=
  ⟨(create_review_prompt_files "d" files_ex none none).2.2.2 0 (by decide), rfl⟩

/-- C4: review_with_ai returns the first completion's message content when
the chat-completion call succeeds, and for any exception raised by the
call it returns (never raises) the string "Error during AI review: "
followed by the exception's description, which starts with "Error". -/
theorem review_with_ai_contract (chat : ChatRequest → Except String ChatCompletion)
    (model prompt : String) :
    (∀ (response : ChatCompletion) (choice : ChatChoice) (rest : List ChatChoice),
      chat (chat_request model prompt) = .ok response →
      response.choices = choice :: rest →
      review_with_ai chat model prompt = choice.message.content) ∧
    (∀ e : String, chat (chat_request model prompt) = .error e →
      review_with_ai chat model prompt = "Error during AI review: " ++ e ∧
      py_startswith (review_with_ai chat model prompt) "Error" = true) := by
  constructor
  · intro response choice rest hok hchoices
    simp [review_with_ai, hok, hchoices]
  · intro e herr
    have hval : review_with_ai chat model prompt = "Error during AI review: " ++ e := by
      simp [review_with_ai, herr]
    refine ⟨hval, ?_⟩
    rw [hval, show ("Error during AI review: " : String) = "Error" ++ " during AI review: " from rfl,
      String.append_assoc]
    exact py_startswith_append_self _ _

/-- C4 witness: a succeeding chat call yields the completion text, a
raising one yields the Error-prefixed description. -/
theorem review_with_ai_contract_witness :
    review_with_ai chat_ok "m" "p" = "Looks good" ∧
    review_with_ai chat_err "m" "p" = "Error during AI review: connection reset" ∧
    py_startswith (review_with_ai chat_err "m" "p") "Error" = true :=
  ⟨(review_with_ai_contract chat_ok "m" "p").1 ⟨[⟨⟨"Looks good"⟩⟩]⟩ ⟨⟨"Looks good"⟩⟩ [] rfl rfl,
   ((review_with_ai_contract chat_err "m" "p").2 "connection reset" rfl).1,
   ((review_with_ai_contract chat_err "m" "p").2 "connection reset" rfl).2⟩

/-- C5: with the pull-request title and body None (or absent, i.e. the
empty-string Python defaults), the prompt renders the literal placeholder
"N/A" in the title and description positions. -/
theorem create_review_prompt_na (diff : String) (files : List ChangedFile) :
    create_review_prompt diff files none none =
      prompt_head ++ "N/A" ++ prompt_seg_desc ++ "N/A"
        ++ (prompt_seg_files ++ file_summary files ++ prompt_seg_diff
          ++ diff.take 50000 ++ diff_comment ++ prompt_tail) ∧
    create_review_prompt diff files =
      prompt_head ++ "N/A" ++ prompt_seg_desc ++ "N/A"
        ++ (prompt_seg_files ++ file_summary files ++ prompt_seg_diff
          ++ diff.take 50000 ++ diff_comment ++ prompt_tail) := by
  constructor <;> simp [create_review_prompt, py_or, String.append_assoc]

/-- C6 counterexample: status 304 is not 2xx, yet both fetchers return the
response body instead of raising, because requests.raise_for_status only
raises for 4xx and 5xx statuses. -/
theorem http_fetch_not2xx_ctrex :
    ¬(200 ≤ (304 : Nat) ∧ (304 : Nat) < 300) ∧
    get_pr_diff (.ok ⟨304, "the diff"⟩) = .ok "the diff" ∧
    get_changed_files (.ok ⟨304, []⟩) = .ok [] :=
  ⟨by decide, rfl, rfl⟩

/-- C6 (amended): get_pr_diff and get_changed_files each raise (and
propagate unmodified, without retrying) exactly when the HTTP response
status is 400-599; for any other status they return the response body
(raw text, resp. parsed JSON list), and an exception from the GET call
itself propagates unmodified. -/
theorem http_fetch_raise_iff_4xx_5xx (rd : HttpResponse String)
    (rf : HttpResponse (List ChangedFile)) (e : String) :
    ((400 ≤ rd.status_code ∧ rd.status_code < 600) ↔
      ∃ msg, get_pr_diff (.ok rd) = .error msg) ∧
    (¬(400 ≤ rd.status_code ∧ rd.status_code < 600) →
      get_pr_diff (.ok rd) = .ok rd.body) ∧
    ((400 ≤ rf.status_code ∧ rf.status_code < 600) ↔
      ∃ msg, get_changed_files (.ok rf) = .error msg) ∧
    (¬(400 ≤ rf.status_code ∧ rf.status_code < 600) →
      get_changed_files (.ok rf) = .ok rf.body) ∧
    get_pr_diff (.error e) = .error e ∧
    get_changed_files (.error e) = .error e := by
  have okd : ¬(400 ≤ rd.status_code ∧ rd.status_code < 600) →
      get_pr_diff (.ok rd) = .ok rd.body := by
    intro h
    simp [get_pr_diff, raise_for_status_of_ok rd h, Except.map]
  have okf : ¬(400 ≤ rf.status_code ∧ rf.status_code < 600) →
      get_changed_files (.ok rf) = .ok rf.body := by
    intro h
    simp [get_changed_files, raise_for_status_of_ok rf h, Except.map]
  refine ⟨⟨?_, ?_⟩, okd, ⟨?_, ?_⟩, okf, rfl, rfl⟩
  · intro h
    obtain ⟨msg, hmsg⟩ := raise_for_status_of_error rd h
    exact ⟨msg, by simp [get_pr_diff, hmsg, Except.map]⟩
  · intro hex
    obtain ⟨msg, hmsg⟩ := hex
    by_contra hc
    rw [okd hc] at hmsg
    exact Except.noConfusion hmsg
  · intro h
    obtain ⟨msg, hmsg⟩ := raise_for_status_of_error rf h
    exact ⟨msg, by simp [get_changed_files, hmsg, Except.map]⟩
  · intro hex
    obtain ⟨msg, hmsg⟩ := hex
    by_contra hc
    rw [okf hc] at hmsg
    exact Except.noConfusion hmsg

/-- C6 witness: a 404 diff fetch raises, a 201 files fetch returns the
parsed list, and a connection error propagates unmodified. -/
theorem http_fetch_raise_iff_4xx_5xx_witness :
    (∃ msg, get_pr_diff (.ok ⟨404, "nf"⟩) = .error msg) ∧
    get_changed_files (.ok ⟨201, [⟨"a.py", "added", 1, 0⟩]⟩) = .ok [⟨"a.py", "added", 1, 0⟩] ∧
    get_pr_diff (.error "timeout") = .error "timeout" :=
  ⟨(http_fetch_raise_iff_4xx_5xx ⟨404, "nf"⟩ ⟨201, [⟨"a.py", "added", 1, 0⟩]⟩ "timeout").1.mp
      (by decide),
   (http_fetch_raise_iff_4xx_5xx ⟨404, "nf"⟩ ⟨201, [⟨"a.py", "added", 1, 0⟩]⟩ "timeout").2.2.2.1
      (by decide),
   (http_fetch_raise_iff_4xx_5xx ⟨404, "nf"⟩ ⟨201, [⟨"a.py", "added", 1, 0⟩]⟩ "timeout").2.2.2.2.1⟩

/-- C7: post_pr_comment issues exactly one create-issue-comment call whose
body is the review wrapped in the fixed Markdown template: the heading
before it and the footer disclaimer after it. -/
theorem post_pr_comment_single_wrapped_call
    (repo_full_name pr_number review_body : String) :
    post_pr_comment repo_full_name pr_number review_body =
      [ApiCall.createIssueComment repo_full_name pr_number
        ("## 🤖 AI Code Review\n\n" ++ review_body ++
          "\n\n---\n*This review was generated automatically by AI PR Reviewer*")] ∧
    (post_pr_comment repo_full_name pr_number review_body).length = 1 :=
  ⟨rfl, rfl⟩

/-- C8: create_review_prompt is deterministic: two calls with equal diff,
changed-files list, title and body return equal prompt strings (the
embedding is a pure function, reflecting that the source performs no
mutation or I/O). -/
theorem create_review_prompt_deterministic (d1 d2 : String)
    (f1 f2 : List ChangedFile) (t1 t2 b1 b2 : Option String)
    (hd : d1 = d2) (hf : f1 = f2) (ht : t1 = t2) (hb : b1 = b2) :
    create_review_prompt d1 f1 t1 b1 = create_review_prompt d2 f2 t2 b2 := by
  rw [hd, hf, ht, hb]

/-- C8 witness: determinism at a concrete input. -/
theorem create_review_prompt_deterministic_witness :
    create_review_prompt "d" files_ex (some "t") none =
      create_review_prompt "d" files_ex (some "t") none :=
  create_review_prompt_deterministic "d" "d" files_ex files_ex (some "t") (some "t")
    none none rfl rfl rfl rfl

/-- C9: the accepted --pr-sha flag is unused: two runs whose arguments
differ only in pr_sha produce identical results (exit code, publisher
calls, comments posted) in every environment. -/
theorem pr_sha_unused (args : Args) (env : Env) (sha1 sha2 : Option String) :
    run_main { args with pr_sha := sha1 } env =
    run_main { args with pr_sha := sha2 } env := by
  cases args
  rfl

/-- C10: for every input, the prompt contains the leaked source comment
"  # Limit diff size to avoid token limits" immediately after the
embedded diff and before the closing code fence. -/
theorem prompt_contains_limit_comment (diff : String)
    (files : List ChangedFile) (t b : Option String) :
    ∃ pre post : String,
      create_review_prompt diff files t b =
        pre ++ diff.take 50000
          ++ "  # Limit diff size to avoid token limits" ++ ("\n```" ++ post) := by
  refine ⟨prompt_head ++ py_or t "N/A" ++ prompt_seg_desc ++ py_or b "N/A"
      ++ prompt_seg_files ++ file_summary files ++ prompt_seg_diff,
    "\n\nPlease provide a comprehensive code review focusing on:\n1. Code quality and best practices\n2. Potential bugs or security issues\n3. Performance considerations\n4. Code style and consistency\n5. Documentation and comments\n6. Test coverage (if applicable)\n\nFormat your review as:\n- **Summary**: Brief overview\n- **Issues Found**: List of issues with severity (Critical/High/Medium/Low)\n- **Suggestions**: Actionable improvement suggestions\n- **Positive Feedback**: What was done well\n\nBe constructive, specific, and provide code examples when helpful.", ?_⟩
  simp only [create_review_prompt, String.append_assoc]
  rfl

end ReviewPr
